import Mathlib

/-!
Verification of the protected dialer and lifecycle controller of
AndroidLibXrayLite (files libv2ray_support.go and libv2ray_main.go).

The Go code is shallowly embedded: pure data is translated to Lean
structures, machine integers become Nat with explicit reduction modulo
2^w where overflow matters (the uint8 index of the resolved-IP list),
timestamps become Int (seconds), and every interaction with the outside
world (DNS lookups, socket syscalls, the host protect callback) is an
explicit oracle recorded in an environment structure.  Syscall-level
behaviour is additionally captured as a trace of events so that temporal
claims (protect before connect, rotation on failure) can be stated.
-/

set_option maxRecDepth 4096

namespace LibXray

/-- An IP address as produced by the platform resolver.  The field
isV4 records whether the Go expression IP.To4() != nil holds, i.e.
whether the address is an IPv4 (or v4-mapped) address. -/
structure IPAddr where
  addr : String
  isV4 : Bool
deriving DecidableEq, Repr

/-- Error values surfaced by the dialer.  Errors produced by oracles
(the OS and the resolver) are carried unchanged through the code, which
is what the osErr code models. -/
inductive Err
  | protectFail
  | prepareFailed (domain : String)
  | unknownNetwork
  | fdInvalid
  | resolveFailed (addr : String)
  | osErr (code : Nat)
deriving DecidableEq, Repr

/-- The Go struct resolved (libv2ray_support.go lines 192-200): cached
resolution of the pinned server.  ipIdx is a uint8 in the source; it is
modelled as a Nat that is reduced modulo 256 at its only increment
site, exactly where the Go arithmetic wraps. -/
structure Resolved where
  domain : String
  IPs : List IPAddr
  Port : Int
  lastResolved : Int
  ipIdx : Nat
  lastSwitched : Int
deriving DecidableEq, Repr

/-- resolved.NextIP (libv2ray_support.go lines 206-230). The method
reads the clock once; here the clock value is the explicit argument
now.  The uint8 increment r.ipIdx++ becomes (ipIdx + 1) % 256 and the
comparison r.ipIdx >= uint8(len(r.IPs)) compares against the length
reduced modulo 256, exactly as the Go conversion does. -/
def NextIP (now : Int) (r : Resolved) : Resolved :=
  if 1 < r.IPs.length then
    if now - r.lastSwitched < 5 then r
    else
      let r1 : Resolved := { r with lastSwitched := now, ipIdx := (r.ipIdx + 1) % 256 }
      if r.IPs.length % 256 ≤ r1.ipIdx then { r1 with ipIdx := 0 } else r1
  else r

/-- resolved.currentIP (libv2ray_support.go lines 232-240): returns
IPs[ipIdx] when the list is non-empty, nil otherwise.  An out-of-range
index (impossible in reachable states) yields none, standing for the
Go runtime panic. -/
def currentIP (r : Resolved) : Option IPAddr :=
  if 0 < r.IPs.length then r.IPs[r.ipIdx]? else none

/-- Concrete endpoint used to exercise the rotation claims: three
distinct addresses, index 0, never rotated. -/
def smallResolved : Resolved :=
  { domain := "example.com", IPs := [⟨"1.1.1.1", true⟩, ⟨"2.2.2.2", true⟩, ⟨"3.3.3.3", true⟩],
    Port := 443, lastResolved := 0, ipIdx := 0, lastSwitched := 0 }

/-- Concrete endpoint with 257 addresses, exhibiting the uint8
truncation of the rotation index. -/
def bigResolved257 : Resolved :=
  { domain := "example.com", IPs := List.replicate 257 ⟨"1.1.1.1", true⟩,
    Port := 443, lastResolved := 0, ipIdx := 0, lastSwitched := 0 }

/-- Concrete endpoint with 300 addresses for the wrap-around claim. -/
def bigResolved300 : Resolved :=
  { domain := "example.com", IPs := List.replicate 300 ⟨"1.1.1.1", true⟩,
    Port := 443, lastResolved := 0, ipIdx := 43, lastSwitched := 0 }

/-- Transport networks distinguished by getFd (libv2ray_support.go
lines 372-382); anything other than TCP or UDP hits the default branch
and fails. -/
inductive Network
  | tcp
  | udp
  | unknownNet
deriving DecidableEq, Repr

/-- Environment of oracles: everything the dialer observes from the
outside world.  Each field corresponds to one call site in the source:
the host Protect callback, unix.Socket per network, unix.Bind,
unix.Connect, os.NewFile validity, net.FilePacketConn / net.FileConn,
net.SplitHostPort, resolver.LookupPort, resolver.LookupIPAddr, and the
clock read by time.Now. -/
structure NetEnv where
  protect : Nat → Bool
  socketRes : Network → Except Err Nat
  bindRes : Nat → Option Err
  connectRes : Nat → Option IPAddr → Int → Option Err
  fileValid : Nat → Bool
  filePacketConnRes : Nat → Except Err Nat
  fileConnRes : Nat → Except Err Nat
  splitHostPort : String → Except Err (String × String)
  lookupPort : String → Except Err Int
  lookupIPAddr : String → Except Err (List IPAddr)
  now : Int

/-- IP-ordering block of lookupAddr (libv2ray_support.go lines
306-327): three sequential for-loops over the lookup result, each
appending the addresses matching its guard in lookup order.  A loop
that appends every element satisfying a predicate, in order, is a
filter. -/
def composeIPs (preferIPv6 : Bool) (addrs : List IPAddr) : List IPAddr :=
  let ips1 := if preferIPv6 then addrs.filter (fun ia => !ia.isV4) else []
  let ips2 := ips1 ++ addrs.filter (fun ia => ia.isV4)
  if !preferIPv6 then ips2 ++ addrs.filter (fun ia => !ia.isV4) else ips2

/-- lookupAddr (libv2ray_support.go lines 277-337): split host and
port, resolve the port number, issue the address lookup, fail on an
empty result, and otherwise build the resolved record.  The Go
composite literal sets only domain, IPs, Port and lastResolved; ipIdx
and lastSwitched keep their zero values. -/
def lookupAddr (env : NetEnv) (preferIPv6 : Bool) (addr : String) : Except Err Resolved :=
  match env.splitHostPort addr with
  | .error e => .error e
  | .ok (host, port) =>
    match env.lookupPort port with
    | .error e => .error e
    | .ok portnum =>
      match env.lookupIPAddr host with
      | .error e => .error e
      | .ok addrs =>
        if addrs.length = 0 then .error (.resolveFailed addr)
        else
          .ok { domain := host, IPs := composeIPs preferIPv6 addrs, Port := portnum,
                lastResolved := env.now, ipIdx := 0, lastSwitched := 0 }

/-- Syscall-level events recorded while a dial runs, in program order:
socket creation, the Protect callback, bind, connect, closing the raw
fd (the deferred unix.Close), closing the wrapping file object, and an
invocation of NextIP. -/
inductive Ev
  | socketEv (fd : Nat)
  | protectEv (fd : Nat)
  | bindEv (fd : Nat)
  | connectEv (fd : Nat)
  | closeFdEv (fd : Nat)
  | closeFileEv (fd : Nat)
  | nextIPEv
deriving DecidableEq, Repr

/-- Result of a dial: blocked forever on the resolve channel, a
connection, or an error. -/
inductive DialOutcome
  | blocked
  | conn (c : Nat)
  | fail (e : Err)
deriving DecidableEq, Repr

/-- A dial destination: the net-address string (host:port) and the
transport network. -/
structure Destination where
  netAddr : String
  network : Network
deriving DecidableEq, Repr

/-- Mutable fields of ProtectedDialer (libv2ray_support.go lines
253-262) as observed by one Dial call: resolveChanFired records
whether close(resolveChan) has already happened. -/
structure DialerState where
  currentServer : String
  resolveChanFired : Bool
  preferIPv6 : Bool
  vServer : Option Resolved
deriving Repr

/-- getFd (libv2ray_support.go lines 372-382): create a native socket
for the requested network, failing on an unknown network. -/
def getFd (env : NetEnv) (network : Network) : Except Err Nat :=
  match network with
  | .tcp => env.socketRes .tcp
  | .udp => env.socketRes .udp
  | .unknownNet => .error .unknownNetwork

/-- fdConn (libv2ray_support.go lines 451-507).  The deferred
unix.Close(fd) is the final closeFdEv on every path.  The fd is first
protected; a refusal aborts before any bind or connect.  UDP binds the
wildcard address, TCP connects to the target.  After a successful
bind/connect the fd is wrapped in a file object (closeFileEv is its
deferred Close) and converted to a packet or stream connection. -/
def fdConn (env : NetEnv) (ip : Option IPAddr) (port : Int) (network : Network) (fd : Nat) :
    List Ev × Except Err Nat :=
  let inner : List Ev × Except Err Nat :=
    if env.protect fd = false then ([.protectEv fd], .error .protectFail)
    else
      let connStep : Ev × Option Err :=
        if network = .udp then (.bindEv fd, env.bindRes fd)
        else (.connectEv fd, env.connectRes fd ip port)
      match connStep with
      | (ev, some e) => ([.protectEv fd, ev], .error e)
      | (ev, none) =>
        if env.fileValid fd = false then ([.protectEv fd, ev], .error .fdInvalid)
        else
          match (if network = .udp then env.filePacketConnRes fd else env.fileConnRes fd) with
          | .error e => ([.protectEv fd, ev, .closeFileEv fd], .error e)
          | .ok c => ([.protectEv fd, ev, .closeFileEv fd], .ok c)
  (inner.1 ++ [.closeFdEv fd], inner.2)

/-- Pinned-server branch of Dial (libv2ray_support.go lines 415-427):
create the socket, run fdConn against the endpoint's current IP and
port, and on any fdConn failure invoke NextIP and return the error
unchanged. -/
def dialPinned (env : NetEnv) (v : Resolved) (network : Network) : List Ev × DialOutcome :=
  match getFd env network with
  | .error e => ([], .fail e)
  | .ok fd =>
    let fc := fdConn env (currentIP v) v.Port network fd
    match fc.2 with
    | .error e => (.socketEv fd :: fc.1 ++ [.nextIPEv], .fail e)
    | .ok c => (.socketEv fd :: fc.1, .conn c)

/-- Non-pinned branch of Dial (libv2ray_support.go lines 430-444):
resolve the destination fresh, create the socket, and connect to the
first resolved address; no rotation on failure. -/
def dialOther (env : NetEnv) (st : DialerState) (dest : Destination) : List Ev × DialOutcome :=
  match lookupAddr env st.preferIPv6 dest.netAddr with
  | .error e => ([], .fail e)
  | .ok r =>
    match getFd env dest.network with
    | .error e => ([], .fail e)
    | .ok fd =>
      let fc := fdConn env r.IPs.head? r.Port dest.network fd
      match fc.2 with
      | .error e => (.socketEv fd :: fc.1, .fail e)
      | .ok c => (.socketEv fd :: fc.1, .conn c)

/-- Dial (libv2ray_support.go lines 390-445).  For the pinned server
with no cached endpoint the code blocks on <-d.resolveChan: the read
does not select on the context, so the ctxCancelled flag is never
consulted while waiting.  vServerAfterWait is the value of d.vServer
re-read after the channel fires (it may have been populated by
PrepareDomain in the meantime); when it is still nil the dial fails
without creating any socket. -/
def Dial (env : NetEnv) (st : DialerState) (vServerAfterWait : Option Resolved)
    (ctxCancelled : Bool) (dest : Destination) : List Ev × DialOutcome :=
  if dest.netAddr = st.currentServer then
    match st.vServer with
    | some v => dialPinned env v dest.network
    | none =>
      if st.resolveChanFired = false then ([], .blocked)
      else
        match vServerAfterWait with
        | none => ([], .fail (.prepareFailed st.currentServer))
        | some v => dialPinned env v dest.network
  else
    dialOther env st dest

/-- Decides whether, among the protect, bind and connect events
touching fd, a protect comes first (vacuously true when no such event
occurs). -/
def protectFirst (fd : Nat) : List Ev → Bool
  | [] => true
  | .protectEv f :: rest => if f = fd then true else protectFirst fd rest
  | .bindEv f :: rest => if f = fd then false else protectFirst fd rest
  | .connectEv f :: rest => if f = fd then false else protectFirst fd rest
  | _ :: rest => protectFirst fd rest

/-- How one PrepareDomain retry round ended. -/
inductive PrepExit
  | success
  | cancelled
  | exhausted
deriving DecidableEq, Repr

/-- Oracles observed by PrepareDomain: the result of the k-th
lookupAddr attempt and whether the core's close channel fired during
the 2-second wait that follows the k-th failure. -/
structure PrepEnv where
  lookup : Nat → Except Err Resolved
  closedDuringWait : Nat → Bool

/-- Events of the preparation cycle: one per resolution attempt, plus
the firing of the resolve channel (close(resolveChan) in RunLoop). -/
inductive PrepEv
  | attempt (k : Nat)
  | fireSignal
deriving DecidableEq, Repr

/-- PrepareDomain retry loop (libv2ray_support.go lines 340-370),
recursing on the maxRetry counter: attempt the lookup; on success store
the endpoint and return; on failure return if the close channel fired
during the wait, otherwise retry.  When the counter hits zero the loop
exits with the endpoint still unset.  The returned option is the value
assigned to d.vServer. -/
def PrepareDomain (env : PrepEnv) : Nat → Nat → Option Resolved × PrepExit × List PrepEv
  | 0, _ => (none, .exhausted, [])
  | fuel + 1, k =>
    match env.lookup k with
    | .ok r => (some r, .success, [.attempt k])
    | .error _ =>
      if env.closedDuringWait k then (none, .cancelled, [.attempt k])
      else
        let rest := PrepareDomain env fuel (k + 1)
        (rest.1, rest.2.1, .attempt k :: rest.2.2)

/-- One prepare cycle as run by RunLoop (the part_002 draft, lines
375-389): PrepareResolveChan creates the channel, the prepareDomain
closure runs PrepareDomain with maxRetry = 10 and then closes the
resolve channel exactly once, after the loop returns - whatever its
exit path was. -/
def prepareDomainCycle (env : PrepEnv) : Option Resolved × List PrepEv :=
  let r := PrepareDomain env 10 0
  (r.1, r.2.2 ++ [.fireSignal])

/-- Fields of CoreController (libv2ray_main.go lines 39-45) that the
lifecycle claims are about; core instances and stats managers are
opaque handles. -/
structure CoreState where
  IsRunning : Bool
  coreInstance : Option Nat
  statsManager : Option Nat
deriving DecidableEq, Repr

/-- Oracles observed by one start attempt: the JSON config load, core
instance creation, and the core Start call. -/
structure StartEnv where
  loadConfig : Except Err Nat
  coreNew : Except Err Nat
  coreStart : Option Err

/-- doShutdown (libv2ray_main.go lines 203-212): close and clear the
instance, clear the running flag and the stats manager. -/
def doShutdown (_s : CoreState) : CoreState :=
  { IsRunning := false, coreInstance := none, statsManager := none }

/-- doStartLoop (libv2ray_main.go lines 215-240): load the config,
create the instance (a failed core.New returns a nil instance), obtain
the stats manager, set the running flag, start the core and clear only
the running flag when the start fails. -/
def doStartLoop (env : StartEnv) (s : CoreState) : CoreState × Option Err :=
  match env.loadConfig with
  | .error e => (s, some e)
  | .ok _ =>
    match env.coreNew with
    | .error e => ({ s with coreInstance := none }, some e)
    | .ok inst =>
      let s1 : CoreState := { s with coreInstance := some inst, statsManager := some inst }
      let s2 : CoreState := { s1 with IsRunning := true }
      match env.coreStart with
      | some e => ({ s2 with IsRunning := false }, some e)
      | none => (s2, none)

/-- StartLoop (libv2ray_main.go lines 113-126): under the mutex,
return immediately when already running, otherwise run doStartLoop. -/
def StartLoop (env : StartEnv) (s : CoreState) : CoreState × Option Err :=
  if s.IsRunning then (s, none) else doStartLoop env s

/-- StopLoop (libv2ray_main.go lines 130-139): under the mutex, shut
down only when running. -/
def StopLoop (s : CoreState) : CoreState :=
  if s.IsRunning then doShutdown s else s

/-- The lifecycle invariant claimed by the spec: the running flag
mirrors the presence of a core instance. -/
def ctrlInv (s : CoreState) : Prop :=
  s.IsRunning = s.coreInstance.isSome

instance (s : CoreState) : Decidable (ctrlInv s) := by
  unfold ctrlInv
  infer_instance

/-- A typed app-module entry of the loaded core config
(serial.TypedMessage); only its type URL matters here. -/
structure TypedMessage where
  typeUrl : String
deriving DecidableEq, Repr

/-- The loaded core config (core.Config): the inbound list is opaque,
the app list carries the typed modules. -/
structure CoreConfig where
  Inbound : List Nat
  App : List TypedMessage
deriving DecidableEq, Repr

/-- The filter predicate of MeasureOutboundDelay (libv2ray_main.go
lines 176-178): keep an app entry iff its type equals one of the three
retained strings. -/
def isEssentialApp (app : TypedMessage) : Bool :=
  app.typeUrl = "xray.app.proxyman.OutboundConfig" ||
  app.typeUrl = "xray.app.dispatcher.Config" ||
  app.typeUrl = "xray.app.log.Config"

/-- Config transformation of MeasureOutboundDelay (libv2ray_main.go
lines 172-182), performed before core.New: drop the inbound list and
rebuild the app list by appending, in order, exactly the entries the
predicate keeps. -/
def simplifyConfig (config : CoreConfig) : CoreConfig :=
  { Inbound := [],
    App := config.App.foldl (fun acc app => if isEssentialApp app then acc ++ [app] else acc) [] }

/-- Concrete environment for the protect-refusal scenarios: the host
refuses every fd, socket creation yields fd 7. -/
def envProtectOff : NetEnv :=
  { protect := fun _ => false
    socketRes := fun _ => .ok 7
    bindRes := fun _ => none
    connectRes := fun _ _ _ => none
    fileValid := fun _ => true
    filePacketConnRes := fun fd => .ok fd
    fileConnRes := fun fd => .ok fd
    splitHostPort := fun _ => .ok ("server.example", "8443")
    lookupPort := fun _ => .ok 8443
    lookupIPAddr := fun _ => .ok [⟨"10.0.0.1", true⟩]
    now := 0 }

/-- Concrete environment whose connect syscall fails with errno 111
(connection refused). -/
def envConnRefused : NetEnv :=
  { envProtectOff with
    protect := fun _ => true
    connectRes := fun _ _ _ => some (.osErr 111) }

/-- Concrete benign environment used by the resolver scenarios:
name resolution of example.com:443 yields one v4 address, the clock
reads 100. -/
def envResolver : NetEnv :=
  { envProtectOff with
    protect := fun _ => true
    splitHostPort := fun _ => .ok ("example.com", "443")
    lookupPort := fun _ => .ok 443
    lookupIPAddr := fun _ => .ok [⟨"93.184.216.34", true⟩]
    now := 100 }

/-- The resolved record produced by lookupAddr under envResolver. -/
def resResolver : Resolved :=
  { domain := "example.com", IPs := [⟨"93.184.216.34", true⟩], Port := 443,
    lastResolved := 100, ipIdx := 0, lastSwitched := 0 }

/-- Pinned endpoint for the dial scenarios: one address, ready. -/
def resPinned : Resolved :=
  { domain := "server.example", IPs := [⟨"10.0.0.1", true⟩], Port := 8443,
    lastResolved := 0, ipIdx := 0, lastSwitched := 0 }

/-- Dialer state whose pinned endpoint is ready. -/
def stReady : DialerState :=
  { currentServer := "server.example:8443", resolveChanFired := true,
    preferIPv6 := false, vServer := some resPinned }

/-- Dialer state still waiting for preparation: no endpoint, resolve
channel not yet closed. -/
def stPending : DialerState :=
  { currentServer := "server.example:8443", resolveChanFired := false,
    preferIPv6 := false, vServer := none }

/-- Dialer state after a failed preparation: no endpoint, resolve
channel closed. -/
def stFailed : DialerState :=
  { currentServer := "server.example:8443", resolveChanFired := true,
    preferIPv6 := false, vServer := none }

/-- TCP dial destination equal to the pinned server. -/
def destPinned : Destination :=
  { netAddr := "server.example:8443", network := .tcp }

/-- First v6 address of the ordering scenarios. -/
def ip6a : IPAddr := ⟨"2001:db8::1", false⟩

/-- The v4 address of the ordering scenarios. -/
def ip4a : IPAddr := ⟨"93.184.216.34", true⟩

/-- Second v6 address of the ordering scenarios. -/
def ip6b : IPAddr := ⟨"2001:db8::2", false⟩

/-- The v6/v4/v6 lookup result of the ordering scenarios. -/
def addrsMixed : List IPAddr := [ip6a, ip4a, ip6b]

/-- Environment in which the core's Start call fails after a
successful config load and instance creation. -/
def envStartFails : StartEnv :=
  { loadConfig := .ok 0, coreNew := .ok 1, coreStart := some (.osErr 13) }

/-- Fresh controller state: not running, no instance. -/
def initCoreState : CoreState :=
  { IsRunning := false, coreInstance := none, statsManager := none }

/-- Unfolding lemma for the advancing branch of NextIP: when the list
has more than one entry and the throttle admits the call, the index is
incremented modulo 256 and reset to zero when it meets or exceeds the
truncated length. -/
theorem NextIP_advance (r : Resolved) (now : Int) (hgt : 1 < r.IPs.length)
    (hthr : ¬ (now - r.lastSwitched < 5)) :
    NextIP now r =
      if r.IPs.length % 256 ≤ (r.ipIdx + 1) % 256 then
        { r with lastSwitched := now, ipIdx := 0 }
      else
        { r with lastSwitched := now, ipIdx := (r.ipIdx + 1) % 256 } := by
  simp only [NextIP, if_pos hgt, if_neg hthr]

/-- Unfolding lemma for the no-op branches of NextIP: a single (or
empty) list or a throttled call leaves the record untouched. -/
theorem NextIP_noop (r : Resolved) (now : Int)
    (h : r.IPs.length ≤ 1 ∨ now - r.lastSwitched < 5) :
    NextIP now r = r := by
  rcases h with h | h
  · have : ¬ (1 < r.IPs.length) := by omega
    simp [NextIP, this]
  · by_cases hgt : 1 < r.IPs.length
    · simp [NextIP, hgt, h]
    · simp [NextIP, hgt]

/-- C2 counterexample: the rotation conditions hold (more than one IP,
five seconds elapsed), yet the index does not advance by one modulo
len(ips): with 257 addresses the incremented uint8 index 1 reaches
uint8(257) = 1 and is reset to 0 instead of the claimed 1 = (0+1) % 257. -/
theorem NextIP_mod_len_counterexample :
    1 < bigResolved257.IPs.length ∧
    5 ≤ (10 : Int) - bigResolved257.lastSwitched ∧
    (NextIP 10 bigResolved257).ipIdx = 0 ∧
    (bigResolved257.ipIdx + 1) % bigResolved257.IPs.length = 1 ∧
    (NextIP 10 bigResolved257).ipIdx ≠ (bigResolved257.ipIdx + 1) % bigResolved257.IPs.length := by
  have hlen : bigResolved257.IPs.length = 257 := by
    simp [bigResolved257]
  have hidx : bigResolved257.ipIdx = 0 := rfl
  have hsw : bigResolved257.lastSwitched = 0 := rfl
  have hadv := NextIP_advance bigResolved257 10 (by omega) (by rw [hsw]; decide)
  have hres : (NextIP 10 bigResolved257).ipIdx = 0 := by
    rw [hadv, if_pos (by rw [hlen, hidx])]
  refine ⟨by omega, by rw [hsw]; decide, hres, by rw [hlen, hidx], by rw [hres, hlen, hidx]; decide⟩

/-- C2 (amended): provided the endpoint has at most 255 addresses and
its index is in range (both true in every reachable state when the list
fits the uint8 index), NextIP advances the index by one modulo len(ips)
and stamps the rotation time exactly when len(ips) > 1 and at least 5
seconds have elapsed since the last advancement; otherwise the call
leaves the whole record unchanged, and when len(ips) <= 1 no
advancement ever happens. -/
theorem NextIP_rotation_throttle (r : Resolved) (now : Int)
    (hlen : r.IPs.length ≤ 255) (hidx : r.ipIdx < r.IPs.length) :
    (1 < r.IPs.length → 5 ≤ now - r.lastSwitched →
      (NextIP now r).ipIdx = (r.ipIdx + 1) % r.IPs.length ∧
      (NextIP now r).lastSwitched = now ∧
      (NextIP now r).ipIdx ≠ r.ipIdx) ∧
    (r.IPs.length ≤ 1 → NextIP now r = r) ∧
    (now - r.lastSwitched < 5 → NextIP now r = r) := by
  refine ⟨?_, fun h => NextIP_noop r now (Or.inl h), fun h => NextIP_noop r now (Or.inr h)⟩
  intro hgt hthr
  rw [NextIP_advance r now hgt (by omega)]
  rcases Nat.lt_or_ge (r.ipIdx + 1) r.IPs.length with hlt | hge
  · rw [if_neg (by omega)]
    refine ⟨?_, rfl, ?_⟩ <;> dsimp only
    · rw [Nat.mod_eq_of_lt hlt]
      omega
    · omega
  · have heq : r.ipIdx + 1 = r.IPs.length := by omega
    rw [if_pos (by omega)]
    refine ⟨?_, rfl, ?_⟩ <;> dsimp only
    · rw [heq, Nat.mod_self]
    · omega

/-- Witness for C2 (amended): on the three-address endpoint with five
seconds on the clock, rotation advances 0 to 1 = (0+1) % 3 and stamps
the time. -/
theorem NextIP_rotation_throttle_witness :
    (NextIP 10 smallResolved).ipIdx = (smallResolved.ipIdx + 1) % smallResolved.IPs.length ∧
    (NextIP 10 smallResolved).lastSwitched = 10 ∧
    (NextIP 10 smallResolved).ipIdx ≠ smallResolved.ipIdx :=
  (NextIP_rotation_throttle smallResolved 10 (by decide) (by decide)).1 (by decide) (by decide)

/-- C10: NextIP compares the incremented index against uint8(len(IPs)),
i.e. the length truncated modulo 256.  For an endpoint with more than
255 addresses an unthrottled rotation yields 0 whenever the incremented
8-bit index reaches len(ips) mod 256, and the resulting index is always
either 0 or below len(ips) mod 256, so addresses at positions at or
above len(ips) mod 256 are never selected by rotation. -/
theorem NextIP_uint8_wraparound (r : Resolved) (now : Int)
    (h255 : 255 < r.IPs.length) (hthr : ¬ (now - r.lastSwitched < 5)) :
    (NextIP now r).ipIdx =
      (if r.IPs.length % 256 ≤ (r.ipIdx + 1) % 256 then 0 else (r.ipIdx + 1) % 256) ∧
    ((NextIP now r).ipIdx = 0 ∨ (NextIP now r).ipIdx < r.IPs.length % 256) := by
  have hgt : 1 < r.IPs.length := by omega
  rw [NextIP_advance r now hgt hthr]
  by_cases hc : r.IPs.length % 256 ≤ (r.ipIdx + 1) % 256
  · rw [if_pos hc, if_pos hc]
    exact ⟨rfl, Or.inl rfl⟩
  · rw [if_neg hc, if_neg hc]
    refine ⟨rfl, Or.inr ?_⟩
    dsimp only
    omega

/-- Witness for C10: with 300 addresses and index 43, the incremented
index 44 reaches 300 mod 256 = 44 and rotation resets the index to 0. -/
theorem NextIP_uint8_wraparound_witness :
    (NextIP 10 bigResolved300).ipIdx =
      (if bigResolved300.IPs.length % 256 ≤ (bigResolved300.ipIdx + 1) % 256 then 0
       else (bigResolved300.ipIdx + 1) % 256) ∧
    ((NextIP 10 bigResolved300).ipIdx = 0 ∨
      (NextIP 10 bigResolved300).ipIdx < bigResolved300.IPs.length % 256) :=
  NextIP_uint8_wraparound bigResolved300 10
    (by simp [bigResolved300]) (by rw [(rfl : bigResolved300.lastSwitched = 0)]; decide)

/-- The three filter loops of composeIPs amount to prefixing the
addresses of the preferred family. -/
theorem composeIPs_eq (prefer : Bool) (addrs : List IPAddr) :
    composeIPs prefer addrs =
      if prefer then addrs.filter (fun ia => !ia.isV4) ++ addrs.filter (fun ia => ia.isV4)
      else addrs.filter (fun ia => ia.isV4) ++ addrs.filter (fun ia => !ia.isV4) := by
  cases prefer <;> simp [composeIPs]

/-- composeIPs permutes the lookup result: every address appears
exactly as often as it was looked up, so no duplication occurs. -/
theorem composeIPs_perm (prefer : Bool) (addrs : List IPAddr) :
    (composeIPs prefer addrs).Perm addrs := by
  rw [composeIPs_eq]
  cases prefer
  · exact List.filter_append_perm (fun ia => ia.isV4) addrs
  · simpa [Bool.not_not] using List.filter_append_perm (fun ia => !ia.isV4) addrs

/-- C3: the resolver composes the ips list deterministically - the
preferred family first, each family in lookup order - without
duplicating any address, and this is exactly the list stored by
lookupAddr; on the v6/v4/v6 fixture the two orders come out as the
claim states. -/
theorem lookupAddr_ip_ordering :
    (∀ (prefer : Bool) (addrs : List IPAddr),
      composeIPs prefer addrs =
        if prefer then addrs.filter (fun ia => !ia.isV4) ++ addrs.filter (fun ia => ia.isV4)
        else addrs.filter (fun ia => ia.isV4) ++ addrs.filter (fun ia => !ia.isV4)) ∧
    (∀ (prefer : Bool) (addrs : List IPAddr), addrs.Nodup → (composeIPs prefer addrs).Nodup) ∧
    (∀ (env : NetEnv) (prefer : Bool) (addr host port : String)
        (addrs : List IPAddr) (r : Resolved),
      env.splitHostPort addr = .ok (host, port) →
      env.lookupIPAddr host = .ok addrs →
      lookupAddr env prefer addr = .ok r →
      r.IPs = composeIPs prefer addrs) ∧
    composeIPs false addrsMixed = [ip4a, ip6a, ip6b] ∧
    composeIPs true addrsMixed = [ip6a, ip6b, ip4a] := by
  refine ⟨composeIPs_eq, ?_, ?_, by decide, by decide⟩
  · intro prefer addrs h
    exact ((composeIPs_perm prefer addrs).nodup_iff).mpr h
  · intro env prefer addr host port addrs r h1 h2 h3
    simp only [lookupAddr, h1] at h3
    cases hport : env.lookupPort port with
    | error e =>
      rw [hport] at h3
      simp at h3
    | ok portnum =>
      rw [hport] at h3
      simp only [h2] at h3
      by_cases hlen : addrs.length = 0
      · rw [if_pos hlen] at h3
        simp at h3
      · rw [if_neg hlen] at h3
        cases h3
        rfl

/-- Witness for C3 (third conjunct): under the concrete resolver
environment the stored ips list is the composed one. -/
theorem lookupAddr_ip_ordering_witness :
    resResolver.IPs = composeIPs false [⟨"93.184.216.34", true⟩] :=
  lookupAddr_ip_ordering.2.2.1 envResolver false "example.com:443" "example.com" "443"
    [⟨"93.184.216.34", true⟩] resResolver rfl rfl rfl

/-- C9 counterexample: a successful lookup under a clock reading 100
produces last_rotated_at (lastSwitched) = 0, the zero value, not the
current instant - only lastResolved is stamped with now. -/
theorem lookupAddr_timestamp_counterexample :
    lookupAddr envResolver false "example.com:443" = .ok resResolver ∧
    envResolver.now = 100 ∧
    resResolver.lastResolved = 100 ∧
    resResolver.lastSwitched = 0 ∧
    resResolver.lastSwitched ≠ envResolver.now := by
  refine ⟨rfl, rfl, rfl, rfl, by decide⟩

/-- C9 (amended): every successful lookup yields ip_index = 0,
last_resolved_at = now, and last_rotated_at left at the zero value (so
the first rotation is never throttled). -/
theorem lookupAddr_initial_state (env : NetEnv) (prefer : Bool) (addr : String) (r : Resolved)
    (h : lookupAddr env prefer addr = .ok r) :
    r.ipIdx = 0 ∧ r.lastResolved = env.now ∧ r.lastSwitched = 0 := by
  simp only [lookupAddr] at h
  split at h
  · exact absurd h (by simp)
  · split at h
    · exact absurd h (by simp)
    · split at h
      · exact absurd h (by simp)
      · split at h
        · exact absurd h (by simp)
        · cases h
          exact ⟨rfl, rfl, rfl⟩

/-- Witness for C9 (amended) at the concrete resolver environment. -/
theorem lookupAddr_initial_state_witness :
    resResolver.ipIdx = 0 ∧ resResolver.lastResolved = envResolver.now ∧
    resResolver.lastSwitched = 0 :=
  lookupAddr_initial_state envResolver false "example.com:443" resResolver rfl

/-- Appending the kept elements one by one is filtering. -/
theorem foldl_append_filter (p : TypedMessage → Bool) (l acc : List TypedMessage) :
    l.foldl (fun a m => if p m then a ++ [m] else a) acc = acc ++ l.filter p := by
  induction l generalizing acc with
  | nil => simp
  | cons m t ih =>
    by_cases hm : p m
    · simp [hm, ih]
    · simp [hm, ih]

/-- C8: the standalone measurement path empties the inbound list and
keeps exactly the app entries whose type is one of the three essential
strings, in their original order (the kept list is the filter, hence a
sublist of the original). -/
theorem MeasureOutboundDelay_config (config : CoreConfig) :
    (simplifyConfig config).Inbound = [] ∧
    (simplifyConfig config).App = config.App.filter isEssentialApp ∧
    (simplifyConfig config).App.Sublist config.App := by
  have happ : (simplifyConfig config).App = config.App.filter isEssentialApp := by
    simp only [simplifyConfig]
    rw [foldl_append_filter]
    simp
  exact ⟨rfl, happ, happ ▸ List.filter_sublist config.App⟩

/-- C7 counterexample: starting from the clean state with a config that
loads and a core that is created but whose Start call fails leaves
IsRunning = false while coreInstance is still populated, violating
running == (core_instance != nil). -/
theorem lifecycle_invariant_counterexample :
    (StartLoop envStartFails initCoreState).1.IsRunning = false ∧
    (StartLoop envStartFails initCoreState).1.coreInstance = some 1 ∧
    ¬ ctrlInv (StartLoop envStartFails initCoreState).1 := by
  refine ⟨rfl, rfl, by decide⟩

/-- C7 (amended): from any state satisfying the invariant, stop
preserves it and any start that returns success preserves it; but a
start that fails at the core Start call leaves running false with the
instance still populated, breaking the invariant until the next
successful start or stop-start cycle. -/
theorem lifecycle_invariant (env : StartEnv) (s : CoreState) (cfg inst : Nat) (e : Err)
    (hinv : ctrlInv s) :
    ctrlInv (StopLoop s) ∧
    ((StartLoop env s).2 = none → ctrlInv (StartLoop env s).1) ∧
    (s.IsRunning = false → env.loadConfig = .ok cfg → env.coreNew = .ok inst →
      env.coreStart = some e →
      (StartLoop env s).1.IsRunning = false ∧
      (StartLoop env s).1.coreInstance = some inst ∧
      (StartLoop env s).2 = some e) := by
  refine ⟨?_, ?_, ?_⟩
  · unfold StopLoop
    by_cases h : s.IsRunning
    · rw [if_pos h]
      simp [doShutdown, ctrlInv]
    · rw [if_neg h]
      exact hinv
  · intro hok
    unfold StartLoop at hok ⊢
    by_cases h : s.IsRunning
    · rw [if_pos h] at hok ⊢
      exact hinv
    · rw [if_neg h] at hok ⊢
      unfold doStartLoop at hok ⊢
      cases hl : env.loadConfig with
      | error e2 =>
        rw [hl] at hok
        simp at hok
      | ok cfg2 =>
        rw [hl] at hok
        cases hn : env.coreNew with
        | error e2 =>
          rw [hn] at hok
          simp at hok
        | ok inst2 =>
          rw [hn] at hok
          cases hs : env.coreStart with
          | some e2 =>
            rw [hs] at hok
            simp at hok
          | none => simp [ctrlInv]
  · intro hrun hl hn hs
    unfold StartLoop doStartLoop
    rw [if_neg (by simp [hrun]), hl, hn, hs]
    exact ⟨rfl, rfl, rfl⟩

/-- Witness for C7 (amended): the three conclusions evaluated at the
failing-start environment on the clean state. -/
theorem lifecycle_invariant_witness :
    ctrlInv (StopLoop initCoreState) ∧
    (StartLoop envStartFails initCoreState).1.IsRunning = false ∧
    (StartLoop envStartFails initCoreState).1.coreInstance = some 1 ∧
    (StartLoop envStartFails initCoreState).2 = some (.osErr 13) := by
  have h := lifecycle_invariant envStartFails initCoreState 0 1 (.osErr 13) (by decide)
  exact ⟨h.1, h.2.2 rfl rfl rfl rfl⟩

/-- The PrepareDomain loop itself never fires the resolve signal: its
events are resolution attempts only. -/
theorem PrepareDomain_no_fire (env : PrepEnv) (fuel k : Nat) :
    PrepEv.fireSignal ∉ (PrepareDomain env fuel k).2.2 := by
  induction fuel generalizing k with
  | zero => simp [PrepareDomain]
  | succ n ih =>
    simp only [PrepareDomain]
    cases env.lookup k with
    | ok r => simp
    | error e =>
      by_cases hc : env.closedDuringWait k
      · simp [hc]
      · simp only [hc, if_false, Bool.false_eq_true, if_neg]
        simp [ih]

/-- C4: one full prepare cycle (PrepareResolveChan, then the RunLoop
closure running PrepareDomain and closing the channel) fires the
resolve signal exactly once, whatever the exit path of the retry loop
(success, cancellation or exhaustion of the 10 retries); the loop
itself contributes no firing. -/
theorem prepareDomain_signal_once (env : PrepEnv) :
    ((prepareDomainCycle env).2).count PrepEv.fireSignal = 1 ∧
    PrepEv.fireSignal ∉ (PrepareDomain env 10 0).2.2 := by
  have hno := PrepareDomain_no_fire env 10 0
  refine ⟨?_, hno⟩
  simp only [prepareDomainCycle]
  rw [List.count_append, List.count_eq_zero.mpr hno]
  simp

/-- The four possible traces of fdConn: protect refused; bind or
connect failed; full path with file wrap (success or wrap failure).
Every trace starts with the protect callback and ends with the deferred
close of the raw fd. -/
theorem fdConn_trace_cases (env : NetEnv) (ip : Option IPAddr) (port : Int)
    (network : Network) (fd : Nat) :
    (fdConn env ip port network fd).1 = [.protectEv fd, .closeFdEv fd] ∨
    (∃ ev, (ev = Ev.bindEv fd ∨ ev = Ev.connectEv fd) ∧
      ((fdConn env ip port network fd).1 = [.protectEv fd, ev, .closeFdEv fd] ∨
       (fdConn env ip port network fd).1 = [.protectEv fd, ev, .closeFileEv fd, .closeFdEv fd])) := by
  by_cases hp : env.protect fd = false
  · left
    simp [fdConn, hp]
  · by_cases hn : network = Network.udp
    · refine Or.inr ⟨Ev.bindEv fd, Or.inl rfl, ?_⟩
      cases hb : env.bindRes fd with
      | some e => left; simp [fdConn, hp, hn, hb]
      | none =>
        by_cases hv : env.fileValid fd = false
        · left; simp [fdConn, hp, hn, hb, hv]
        · cases hf : env.filePacketConnRes fd with
          | error e => right; simp [fdConn, hp, hn, hb, hv, hf]
          | ok c => right; simp [fdConn, hp, hn, hb, hv, hf]
    · refine Or.inr ⟨Ev.connectEv fd, Or.inr rfl, ?_⟩
      cases hc : env.connectRes fd ip port with
      | some e => left; simp [fdConn, hp, hn, hc]
      | none =>
        by_cases hv : env.fileValid fd = false
        · left; simp [fdConn, hp, hn, hc, hv]
        · cases hf : env.fileConnRes fd with
          | error e => right; simp [fdConn, hp, hn, hc, hv, hf]
          | ok c => right; simp [fdConn, hp, hn, hc, hv, hf]

/-- When the host refuses to protect the fd, fdConn performs nothing
but the protect call and the deferred close, and fails. -/
theorem fdConn_protect_refused (env : NetEnv) (ip : Option IPAddr) (port : Int)
    (network : Network) (fd : Nat) (hp : env.protect fd = false) :
    fdConn env ip port network fd = ([.protectEv fd, .closeFdEv fd], .error .protectFail) := by
  simp [fdConn, hp]

/-- Among the protect, bind and connect events of an fdConn trace, a
protect always comes first, whatever fd is asked about. -/
theorem fdConn_protectFirst (env : NetEnv) (ip : Option IPAddr) (port : Int)
    (network : Network) (fd g : Nat) :
    protectFirst g (fdConn env ip port network fd).1 = true := by
  rcases fdConn_trace_cases env ip port network fd with h | ⟨ev, hev, h⟩
  · rw [h]
    by_cases hg : fd = g <;> simp [protectFirst, hg]
  · rcases hev with rfl | rfl <;> rcases h with h | h <;> rw [h] <;>
      by_cases hg : fd = g <;> simp [protectFirst, hg]

/-- An fdConn trace contains no socket-creation and no rotation
events. -/
theorem fdConn_trace_no_socket_no_rotate (env : NetEnv) (ip : Option IPAddr) (port : Int)
    (network : Network) (fd g : Nat) :
    Ev.socketEv g ∉ (fdConn env ip port network fd).1 ∧
    Ev.nextIPEv ∉ (fdConn env ip port network fd).1 := by
  rcases fdConn_trace_cases env ip port network fd with h | ⟨ev, hev, h⟩
  · rw [h]
    simp
  · rcases hev with rfl | rfl <;> rcases h with h | h <;> rw [h] <;> simp

/-- Every fdConn trace closes the raw fd. -/
theorem fdConn_trace_closes (env : NetEnv) (ip : Option IPAddr) (port : Int)
    (network : Network) (fd : Nat) :
    Ev.closeFdEv fd ∈ (fdConn env ip port network fd).1 := by
  rcases fdConn_trace_cases env ip port network fd with h | ⟨ev, hev, h⟩
  · rw [h]
    simp
  · rcases h with h | h <;> rw [h] <;> simp

/-- The fdConn result is protectFail exactly on the refused-protect
path; conversely a protected call never returns protectFail.  Only the
refusal direction is needed below. -/
theorem fdConn_protect_mem (env : NetEnv) (ip : Option IPAddr) (port : Int)
    (network : Network) (fd : Nat) :
    Ev.protectEv fd ∈ (fdConn env ip port network fd).1 := by
  rcases fdConn_trace_cases env ip port network fd with h | ⟨ev, hev, h⟩
  · rw [h]
    simp
  · rcases h with h | h <;> rw [h] <;> simp

/-- A trailing rotation event does not affect which of protect, bind
and connect comes first. -/
theorem protectFirst_append_nextIP (g : Nat) (t : List Ev) :
    protectFirst g (t ++ [Ev.nextIPEv]) = protectFirst g t := by
  induction t with
  | nil => simp [protectFirst]
  | cons e rest ih => cases e <;> simp [protectFirst, ih]

/-- Shape of a full Dial run: either the trace is empty (blocked,
prepare failure, resolver failure, socket-creation failure) or it is
one socket creation followed by an fdConn trace against some target,
possibly followed by one rotation, with the outcome tied to the fdConn
result. -/
theorem Dial_shape (env : NetEnv) (st : DialerState) (vsa : Option Resolved)
    (ctx : Bool) (dest : Destination) :
    (Dial env st vsa ctx dest).1 = [] ∨
    ∃ fd ip port,
      getFd env dest.network = .ok fd ∧
      ((∃ c, (fdConn env ip port dest.network fd).2 = .ok c ∧
          (Dial env st vsa ctx dest).1 = .socketEv fd :: (fdConn env ip port dest.network fd).1 ∧
          (Dial env st vsa ctx dest).2 = .conn c) ∨
       (∃ e, (fdConn env ip port dest.network fd).2 = .error e ∧
          ((Dial env st vsa ctx dest).1 = .socketEv fd :: (fdConn env ip port dest.network fd).1 ∨
           (Dial env st vsa ctx dest).1 =
             .socketEv fd :: (fdConn env ip port dest.network fd).1 ++ [.nextIPEv]) ∧
          (Dial env st vsa ctx dest).2 = .fail e)) := by
  unfold Dial
  by_cases hpin : dest.netAddr = st.currentServer
  · rw [if_pos hpin]
    have hdp : ∀ v : Resolved,
        (dialPinned env v dest.network).1 = [] ∨
        ∃ fd ip port,
          getFd env dest.network = .ok fd ∧
          ((∃ c, (fdConn env ip port dest.network fd).2 = .ok c ∧
              (dialPinned env v dest.network).1 =
                .socketEv fd :: (fdConn env ip port dest.network fd).1 ∧
              (dialPinned env v dest.network).2 = .conn c) ∨
           (∃ e, (fdConn env ip port dest.network fd).2 = .error e ∧
              ((dialPinned env v dest.network).1 =
                 .socketEv fd :: (fdConn env ip port dest.network fd).1 ∨
               (dialPinned env v dest.network).1 =
                 .socketEv fd :: (fdConn env ip port dest.network fd).1 ++ [.nextIPEv]) ∧
              (dialPinned env v dest.network).2 = .fail e)) := by
      intro v
      unfold dialPinned
      cases hg : getFd env dest.network with
      | error e => left; rfl
      | ok fd =>
        dsimp only
        right
        refine ⟨fd, currentIP v, v.Port, rfl, ?_⟩
        cases hr : (fdConn env (currentIP v) v.Port dest.network fd).2 with
        | error e => right; exact ⟨e, rfl, Or.inr rfl, rfl⟩
        | ok c => left; exact ⟨c, rfl, rfl, rfl⟩
    cases st.vServer with
    | some v => exact hdp v
    | none =>
      by_cases hch : st.resolveChanFired = false
      · rw [if_pos hch]
        left; rfl
      · rw [if_neg hch]
        cases vsa with
        | none => left; rfl
        | some v => exact hdp v
  · rw [if_neg hpin]
    unfold dialOther
    cases hl : lookupAddr env st.preferIPv6 dest.netAddr with
    | error e => left; rfl
    | ok r =>
      cases hg : getFd env dest.network with
      | error e => left; rfl
      | ok fd =>
        dsimp only
        right
        refine ⟨fd, r.IPs.head?, r.Port, rfl, ?_⟩
        cases hr : (fdConn env r.IPs.head? r.Port dest.network fd).2 with
        | error e => right; exact ⟨e, rfl, Or.inl rfl, rfl⟩
        | ok c => left; exact ⟨c, rfl, rfl, rfl⟩

/-- C1: in every dial, TCP or UDP, pinned or not, the Protect callback
on the host port comes before any bind or connect on the created fd,
and when Protect returns false the dial fails with the protect error,
the fd is closed, and no bind or connect is ever attempted on it. -/
theorem Dial_protect_gate (env : NetEnv) (st : DialerState) (vsa : Option Resolved)
    (ctx : Bool) (dest : Destination) (fd : Nat) :
    protectFirst fd (Dial env st vsa ctx dest).1 = true ∧
    (Ev.socketEv fd ∈ (Dial env st vsa ctx dest).1 →
      Ev.protectEv fd ∈ (Dial env st vsa ctx dest).1) ∧
    (Ev.socketEv fd ∈ (Dial env st vsa ctx dest).1 → env.protect fd = false →
      (Dial env st vsa ctx dest).2 = .fail .protectFail ∧
      Ev.closeFdEv fd ∈ (Dial env st vsa ctx dest).1 ∧
      Ev.bindEv fd ∉ (Dial env st vsa ctx dest).1 ∧
      Ev.connectEv fd ∉ (Dial env st vsa ctx dest).1) := by
  rcases Dial_shape env st vsa ctx dest with hnil | ⟨fd', ip, port, hget, hcase⟩
  · rw [hnil]
    exact ⟨rfl, by simp, by simp⟩
  · have htr : (Dial env st vsa ctx dest).1 =
          .socketEv fd' :: (fdConn env ip port dest.network fd').1 ∨
        (Dial env st vsa ctx dest).1 =
          .socketEv fd' :: ((fdConn env ip port dest.network fd').1 ++ [.nextIPEv]) := by
      rcases hcase with ⟨c, _, h1, _⟩ | ⟨e, _, h1 | h1, _⟩
      · exact Or.inl h1
      · exact Or.inl h1
      · exact Or.inr h1
    have hfirst : protectFirst fd (Dial env st vsa ctx dest).1 = true := by
      rcases htr with h | h
      · rw [h]
        exact fdConn_protectFirst env ip port dest.network fd' fd
      · rw [h]
        calc protectFirst fd
              (Ev.socketEv fd' :: ((fdConn env ip port dest.network fd').1 ++ [Ev.nextIPEv]))
            = protectFirst fd ((fdConn env ip port dest.network fd').1 ++ [Ev.nextIPEv]) := rfl
          _ = protectFirst fd (fdConn env ip port dest.network fd').1 :=
              protectFirst_append_nextIP fd _
          _ = true := fdConn_protectFirst env ip port dest.network fd' fd
    have hsock : Ev.socketEv fd ∈ (Dial env st vsa ctx dest).1 → fd = fd' := by
      intro hmem
      have hno := (fdConn_trace_no_socket_no_rotate env ip port dest.network fd' fd).1
      rcases htr with h | h <;> rw [h] at hmem
      · rcases List.mem_cons.mp hmem with h1 | h1
        · injection h1 with h2
        · exact absurd h1 hno
      · rcases List.mem_cons.mp hmem with h1 | h1
        · injection h1 with h2
        · rcases List.mem_append.mp h1 with h2 | h2
          · exact absurd h2 hno
          · simp at h2
    refine ⟨hfirst, ?_, ?_⟩
    · intro hmem
      obtain rfl := hsock hmem
      have hpm := fdConn_protect_mem env ip port dest.network fd
      rcases htr with h | h <;> rw [h]
      · exact List.mem_cons_of_mem _ hpm
      · exact List.mem_cons_of_mem _ (List.mem_append_left _ hpm)
    · intro hmem hp
      obtain rfl := hsock hmem
      have hfd := fdConn_protect_refused env ip port dest.network fd hp
      have hres : (fdConn env ip port dest.network fd).2 = .error .protectFail := by rw [hfd]
      have htr2 : (fdConn env ip port dest.network fd).1 = [.protectEv fd, .closeFdEv fd] := by
        rw [hfd]
      rcases hcase with ⟨c, hc, h1, h2⟩ | ⟨e, he, h1, h2⟩
      · rw [hres] at hc
        exact absurd hc (by simp)
      · rw [hres] at he
        injection he with he2
        subst he2
        refine ⟨h2, ?_, ?_, ?_⟩ <;>
          rcases h1 with h1 | h1 <;> rw [h1, htr2] <;> simp

/-- Witness for C10: with 300 addresses and index 43, the incremented
index 44 reaches 300 mod 256 = 44 and rotation resets the index to 0. -/
theorem Dial_protect_gate_witness :
    (Dial envProtectOff stReady none false destPinned).2 = .fail .protectFail ∧
    Ev.closeFdEv 7 ∈ (Dial envProtectOff stReady none false destPinned).1 ∧
    Ev.bindEv 7 ∉ (Dial envProtectOff stReady none false destPinned).1 ∧
    Ev.connectEv 7 ∉ (Dial envProtectOff stReady none false destPinned).1 := by
  have h := Dial_protect_gate envProtectOff stReady none false destPinned 7
  exact h.2.2 (by decide) rfl

/-- C5 counterexample: with the pinned endpoint unpopulated and the
resolve channel not yet fired, the dial blocks on the channel even
though the context is already cancelled, and the outcome is identical
to the uncancelled run: the wait does not respect context
cancellation. -/
theorem Dial_ctx_cancel_counterexample :
    Dial envProtectOff stPending none true destPinned = ([], DialOutcome.blocked) ∧
    Dial envProtectOff stPending none false destPinned =
      Dial envProtectOff stPending none true destPinned := by
  exact ⟨rfl, rfl⟩

/-- C5 (amended): a dial to the pinned server with no cached endpoint
waits on the resolve channel (the wait does not observe context
cancellation), and when the endpoint is still unpopulated after the
channel fires, it fails with the prepare-failure error with an empty
syscall trace - no socket is ever created. -/
theorem Dial_prepare_failure (env : NetEnv) (st : DialerState) (vsa : Option Resolved)
    (ctx : Bool) (dest : Destination)
    (hpin : dest.netAddr = st.currentServer) (hvs : st.vServer = none) :
    (st.resolveChanFired = false → Dial env st vsa ctx dest = ([], .blocked)) ∧
    (st.resolveChanFired = true → vsa = none →
      Dial env st vsa ctx dest = ([], .fail (.prepareFailed st.currentServer))) := by
  constructor
  · intro h
    simp [Dial, hpin, hvs, h]
  · intro h1 h2
    simp [Dial, hpin, hvs, h1, h2]

/-- Witness for C5 (amended): the two concrete waiting states. -/
theorem Dial_prepare_failure_witness :
    Dial envProtectOff stPending none true destPinned = ([], .blocked) ∧
    Dial envProtectOff stFailed none true destPinned =
      ([], .fail (.prepareFailed stFailed.currentServer)) := by
  have h1 := Dial_prepare_failure envProtectOff stPending none true destPinned rfl rfl
  have h2 := Dial_prepare_failure envProtectOff stFailed none true destPinned rfl rfl
  exact ⟨h1.1 rfl, h2.2 rfl rfl⟩

/-- C6 counterexample: on a pinned dial whose Protect callback is
refused, the code rotates (NextIP appears in the trace) although no
bind and no connect syscall was attempted at all, let alone failed -
rotation is not triggered only by a failed connect/bind. -/
theorem Dial_rotate_on_protectFail_counterexample :
    Dial envProtectOff stReady none false destPinned =
      ([Ev.socketEv 7, Ev.protectEv 7, Ev.closeFdEv 7, Ev.nextIPEv],
        DialOutcome.fail Err.protectFail) ∧
    Ev.nextIPEv ∈ (Dial envProtectOff stReady none false destPinned).1 ∧
    Ev.bindEv 7 ∉ (Dial envProtectOff stReady none false destPinned).1 ∧
    Ev.connectEv 7 ∉ (Dial envProtectOff stReady none false destPinned).1 := by
  refine ⟨rfl, by decide, by decide, by decide⟩

/-- C6 (amended): on a dial to the pinned server, any failure of the
protect-bind-connect-wrap stage (fdConn) - including a refused protect -
triggers exactly one NextIP call and the underlying error is returned
unchanged; a socket-creation failure returns without rotating; on
success no rotation happens; and a dial to any non-pinned destination
never invokes NextIP. -/
theorem Dial_rotation_semantics (env : NetEnv) (st : DialerState) (vsa : Option Resolved)
    (ctx : Bool) (dest : Destination) (v : Resolved) (fd : Nat) (e : Err) (c : Nat) :
    (dest.netAddr ≠ st.currentServer → Ev.nextIPEv ∉ (Dial env st vsa ctx dest).1) ∧
    (dest.netAddr = st.currentServer → st.vServer = some v →
      (getFd env dest.network = .error e → Dial env st vsa ctx dest = ([], .fail e)) ∧
      (getFd env dest.network = .ok fd →
        ((fdConn env (currentIP v) v.Port dest.network fd).2 = .error e →
          ((Dial env st vsa ctx dest).1).count Ev.nextIPEv = 1 ∧
          (Dial env st vsa ctx dest).2 = .fail e) ∧
        ((fdConn env (currentIP v) v.Port dest.network fd).2 = .ok c →
          Ev.nextIPEv ∉ (Dial env st vsa ctx dest).1 ∧
          (Dial env st vsa ctx dest).2 = .conn c))) := by
  constructor
  · intro hne
    simp only [Dial, if_neg (fun h => hne h)]
    unfold dialOther
    cases hl : lookupAddr env st.preferIPv6 dest.netAddr with
    | error e2 => simp
    | ok r =>
      cases hg : getFd env dest.network with
      | error e2 => simp
      | ok fd2 =>
        cases hr : (fdConn env r.IPs.head? r.Port dest.network fd2).2 with
        | error e2 =>
          simp only [hr]
          intro hmem
          rcases List.mem_cons.mp hmem with h1 | h1
          · exact absurd h1 (by simp)
          · exact absurd h1
              (fdConn_trace_no_socket_no_rotate env r.IPs.head? r.Port dest.network fd2 0).2
        | ok c2 =>
          simp only [hr]
          intro hmem
          rcases List.mem_cons.mp hmem with h1 | h1
          · exact absurd h1 (by simp)
          · exact absurd h1
              (fdConn_trace_no_socket_no_rotate env r.IPs.head? r.Port dest.network fd2 0).2
  · intro hpin hvs
    have hdial : Dial env st vsa ctx dest = dialPinned env v dest.network := by
      simp [Dial, hpin, hvs]
    rw [hdial]
    constructor
    · intro hg
      simp [dialPinned, hg]
    · intro hg
      unfold dialPinned
      rw [hg]
      dsimp only
      constructor
      · intro hr
        rw [hr]
        dsimp only
        constructor
        · have hno := (fdConn_trace_no_socket_no_rotate env (currentIP v) v.Port dest.network fd 0).2
          simp [List.count_cons, List.count_append, List.count_eq_zero.mpr hno]
        · rfl
      · intro hr
        rw [hr]
        dsimp only
        constructor
        · intro hmem
          have hno := (fdConn_trace_no_socket_no_rotate env (currentIP v) v.Port dest.network fd 0).2
          rcases List.mem_cons.mp hmem with h1 | h1
          · exact absurd h1 (by simp)
          · exact absurd h1 hno
        · rfl

/-- Witness for C6 (amended): a pinned dial whose connect fails with
errno 111 rotates exactly once and returns that error unchanged. -/
theorem Dial_rotation_semantics_witness :
    ((Dial envConnRefused stReady none false destPinned).1).count Ev.nextIPEv = 1 ∧
    (Dial envConnRefused stReady none false destPinned).2 = .fail (.osErr 111) := by
  have h := Dial_rotation_semantics envConnRefused stReady none false destPinned
    resPinned 7 (.osErr 111) 0
  exact ((h.2 rfl rfl).2 rfl).1 rfl

end LibXray
